import Mathlib

/-!
Verification development for the CarbonLensAI-Industrial calculation core
(`src/app.py`).  The Python code is shallowly embedded over exact rationals:

* every numeric quantity is a `ℚ` (the Python code computes with IEEE floats;
  all claim-relevant properties are about the exact arithmetic the formulas
  denote, and concrete counterexample inputs are chosen away from float ties);
* Python's `round(x, n)` is modelled by `roundTo n x`, round-half-up on ℚ
  (Python uses round-half-even on binary floats; the two agree except on exact
  decimal ties, which no statement below touches);
* Python's `int(x)` truncation toward zero is `pyint`;
* Python's float division, which raises `ZeroDivisionError` on a zero
  denominator, is `pydiv`, returning `Except`;
* the `description` field of a scenario (a formatted presentation string) is
  omitted from the `Scenario` record; all other fields are kept.
-/

namespace CarbonLens

/-- Emission factors (tCO2e per unit), the `FACTORS` table of `app.py`. -/
def FACTORS_diesel : ℚ := 0.00268

def FACTORS_petrol : ℚ := 0.00231

def FACTORS_natural_gas : ℚ := 0.00202

def FACTORS_coal : ℚ := 2.86

def FACTORS_lpg : ℚ := 0.00151

def FACTORS_electricity : ℚ := 0.00071

def FACTORS_refrigerant_r22 : ℚ := 1.810

def FACTORS_refrigerant_r410a : ℚ := 2.088

def FACTORS_refrigerant_r134a : ℚ := 1.430

def FACTORS_steel : ℚ := 1.85

def FACTORS_cement : ℚ := 0.90

def FACTORS_aluminum : ℚ := 12.7

def FACTORS_plastic : ℚ := 2.70

def FACTORS_paper : ℚ := 0.94

def FACTORS_glass : ℚ := 0.85

def FACTORS_logistics_truck : ℚ := 0.00012

def FACTORS_logistics_ship : ℚ := 0.00004

def FACTORS_logistics_air : ℚ := 0.00060

def FACTORS_waste_landfill : ℚ := 0.50

def FACTORS_waste_recycled : ℚ := 0.10

/-- Energy costs (INR per unit), the `ENERGY_COSTS` table of `app.py`. -/
def ENERGY_COSTS_electricity : ℚ := 8.5

def ENERGY_COSTS_diesel : ℚ := 95

def ENERGY_COSTS_petrol : ℚ := 105

def ENERGY_COSTS_natural_gas : ℚ := 45

def ENERGY_COSTS_coal : ℚ := 8000

def ENERGY_COSTS_lpg : ℚ := 85

/-- Carbon price (INR per tCO2e). -/
def CARBON_PRICE : ℚ := 2500

/-- Model of Python `round(x, n)` over exact rationals (round-half-up). -/
def roundTo (n : ℕ) (x : ℚ) : ℚ := (round (x * 10 ^ n) : ℚ) / 10 ^ n

/-- Model of Python `int(x)`: truncation toward zero. -/
def pyint (q : ℚ) : ℤ := if q < 0 then ⌈q⌉ else ⌊q⌋

/-- Model of Python float division: raises `ZeroDivisionError` on a zero
denominator. -/
def pydiv (a b : ℚ) : Except String ℚ :=
  if b = 0 then Except.error "ZeroDivisionError" else Except.ok (a / b)

/-- The 22 coerced form fields built in `index` (`app.py` lines 212-235). -/
structure ActivityData where
  diesel : ℚ
  petrol : ℚ
  natural_gas : ℚ
  coal : ℚ
  lpg : ℚ
  electricity : ℚ
  renewable : ℚ
  refrigerant_r22 : ℚ
  refrigerant_r410a : ℚ
  refrigerant_r134a : ℚ
  steel : ℚ
  cement : ℚ
  aluminum : ℚ
  plastic : ℚ
  paper : ℚ
  glass : ℚ
  logistics_truck : ℚ
  logistics_ship : ℚ
  logistics_air : ℚ
  waste_landfill : ℚ
  waste_recycled : ℚ
  production : ℚ
deriving DecidableEq

/-- A reduction scenario record as built by `calculate_scenarios`.  The
`description` field (presentation-only formatted string) is omitted; absence
of the `is_combined` key in the Python dict is modelled by the default
`false`, matching `x.get('is_combined', False)`. -/
structure Scenario where
  name : String
  investment : ℚ
  annual_savings : ℚ
  carbon_reduction : ℚ
  payback_years : ℚ
  roi_percent : ℚ
  priority : String
  is_combined : Bool := false
deriving DecidableEq

instance : Inhabited Scenario :=
  ⟨{ name := "", investment := 0, annual_savings := 0, carbon_reduction := 0,
     payback_years := 0, roi_percent := 0, priority := "", is_combined := false }⟩

/-! Scenario 1: Rooftop Solar (`app.py` lines 43-64). -/

def solar_kwh (d : ActivityData) : ℚ := d.electricity * (40 / 100)

def solar_emission_reduction (d : ActivityData) : ℚ := solar_kwh d * FACTORS_electricity

def solar_energy_savings (d : ActivityData) : ℚ := solar_kwh d * ENERGY_COSTS_electricity

def system_size_kw (d : ActivityData) : ℚ := solar_kwh d / 150

def solar_investment (d : ActivityData) : ℚ := system_size_kw d * 60000

def solar_roi (d : ActivityData) : ℚ :=
  if 0 < solar_investment d then solar_energy_savings d * 100 / solar_investment d else 0

def solarScenario (d : ActivityData) : Option Scenario :=
  if 0 < d.electricity then
    some { name := "Rooftop Solar (40% offset)"
           investment := roundTo 2 (solar_investment d)
           annual_savings := roundTo 2 (solar_energy_savings d)
           carbon_reduction := roundTo 2 (solar_emission_reduction d)
           payback_years :=
             if 0 < solar_energy_savings d then
               roundTo 1 (solar_investment d / solar_energy_savings d)
             else 0
           roi_percent := roundTo 1 (solar_roi d)
           priority := if 15 < solar_roi d then "High" else "Medium"
           is_combined := false }
  else none

/-! Scenario 2: EV Fleet (`app.py` lines 67-88). -/

def vehicle_fuel_cost (d : ActivityData) : ℚ :=
  d.diesel * ENERGY_COSTS_diesel + d.petrol * ENERGY_COSTS_petrol

def ev_fuel_savings (d : ActivityData) : ℚ := vehicle_fuel_cost d * 30 / 100 * 0.6

def ev_emission_reduction (d : ActivityData) : ℚ :=
  (d.diesel * FACTORS_diesel + d.petrol * FACTORS_petrol) * 30 / 100

def vehicles_to_replace (d : ActivityData) : ℤ :=
  max 1 (pyint ((d.diesel + d.petrol) / 1000))

def ev_investment (d : ActivityData) : ℚ := (vehicles_to_replace d : ℚ) * 1500000

def ev_roi (d : ActivityData) : ℚ :=
  if 0 < ev_investment d then ev_fuel_savings d * 100 / ev_investment d else 0

def evScenario (d : ActivityData) : Option Scenario :=
  if 1000 < d.diesel ∨ 500 < d.petrol then
    some { name := "EV Fleet (30% transition)"
           investment := roundTo 2 (ev_investment d)
           annual_savings := roundTo 2 (ev_fuel_savings d)
           carbon_reduction := roundTo 2 (ev_emission_reduction d)
           payback_years :=
             if 0 < ev_fuel_savings d then roundTo 1 (ev_investment d / ev_fuel_savings d)
             else 0
           roi_percent := roundTo 1 (ev_roi d)
           priority := if 12 < ev_roi d then "High" else "Medium"
           is_combined := false }
  else none

/-! Scenario 3: Energy Efficiency (`app.py` lines 91-111). -/

def kwh_saved (d : ActivityData) : ℚ := d.electricity * 15 / 100

def efficiency_emission_reduction (d : ActivityData) : ℚ := kwh_saved d * FACTORS_electricity

def efficiency_cost_savings (d : ActivityData) : ℚ := kwh_saved d * ENERGY_COSTS_electricity

def efficiency_investment (d : ActivityData) : ℚ := d.electricity * 0.5

def efficiency_roi (d : ActivityData) : ℚ :=
  if 0 < efficiency_investment d then
    efficiency_cost_savings d * 100 / efficiency_investment d
  else 0

def efficiencyScenario (d : ActivityData) : Option Scenario :=
  if 0 < d.electricity then
    some { name := "Energy Efficiency (15% reduction)"
           investment := roundTo 2 (efficiency_investment d)
           annual_savings := roundTo 2 (efficiency_cost_savings d)
           carbon_reduction := roundTo 2 (efficiency_emission_reduction d)
           payback_years :=
             if 0 < efficiency_cost_savings d then
               roundTo 1 (efficiency_investment d / efficiency_cost_savings d)
             else 0
           roi_percent := roundTo 1 (efficiency_roi d)
           priority := if 20 < efficiency_roi d then "High" else "Medium"
           is_combined := false }
  else none

/-! Scenario 4: Waste Diversion (`app.py` lines 114-134). -/

def waste_diverted (d : ActivityData) : ℚ := d.waste_landfill * 50 / 100

def waste_emission_reduction (d : ActivityData) : ℚ :=
  waste_diverted d * (FACTORS_waste_landfill - FACTORS_waste_recycled)

def waste_cost_savings (d : ActivityData) : ℚ := waste_diverted d * 2000

def waste_investment (d : ActivityData) : ℚ := 300000 + d.waste_landfill * 10000

def waste_roi (d : ActivityData) : ℚ :=
  if 0 < waste_investment d then waste_cost_savings d * 100 / waste_investment d else 0

def wasteScenario (d : ActivityData) : Option Scenario :=
  if 0 < d.waste_landfill then
    some { name := "Waste Diversion (50% to recycling)"
           investment := roundTo 2 (waste_investment d)
           annual_savings := roundTo 2 (waste_cost_savings d)
           carbon_reduction := roundTo 2 (waste_emission_reduction d)
           payback_years :=
             if 0 < waste_cost_savings d then
               roundTo 1 (waste_investment d / waste_cost_savings d)
             else 0
           roi_percent := roundTo 1 (waste_roi d)
           priority := "Medium"
           is_combined := false }
  else none

/-! Scenario 5: Green Energy Procurement (`app.py` lines 137-160).  Its
Python name interpolates the formatted target percentage; like
`description`, that formatted suffix is presentation-only and is dropped
from the modelled name, which stays a unique constant identifying the
scenario. -/

def target_renewable (d : ActivityData) : ℚ := min 50 (d.renewable + 30)

def additional_renewable_pct (d : ActivityData) : ℚ := target_renewable d - d.renewable

def additional_renewable_kwh (d : ActivityData) : ℚ :=
  d.electricity * additional_renewable_pct d / 100

def renewable_emission_reduction (d : ActivityData) : ℚ :=
  additional_renewable_kwh d * FACTORS_electricity

def green_premium (d : ActivityData) : ℚ := additional_renewable_kwh d * 12 * 1.5

def renewable_carbon_savings (d : ActivityData) : ℚ :=
  renewable_emission_reduction d * CARBON_PRICE

def net_renewable_savings (d : ActivityData) : ℚ :=
  renewable_carbon_savings d - green_premium d

def greenScenario (d : ActivityData) : Option Scenario :=
  if d.renewable < 50 then
    some { name := "Green Energy Procurement"
           investment := 0
           annual_savings := roundTo 2 (net_renewable_savings d)
           carbon_reduction := roundTo 2 (renewable_emission_reduction d)
           payback_years := 0
           roi_percent := if 0 < net_renewable_savings d then 999 else 0
           priority := if 0 < net_renewable_savings d then "High" else "Low"
           is_combined := false }
  else none

/-! Scenario 6: Material Efficiency (`app.py` lines 163-182); driven by the
`scope3['Raw Materials']` value passed into `calculate_scenarios`. -/

def material_emission_reduction (raw_materials : ℚ) : ℚ := raw_materials * 10 / 100

def material_cost_savings (raw_materials : ℚ) : ℚ :=
  material_emission_reduction raw_materials * 50000

def material_investment : ℚ := 500000

def material_roi (raw_materials : ℚ) : ℚ :=
  if 0 < material_investment then
    material_cost_savings raw_materials * 100 / material_investment
  else 0

def materialScenario (raw_materials : ℚ) : Option Scenario :=
  if 10 < raw_materials then
    some { name := "Material Efficiency (10% reduction)"
           investment := roundTo 2 material_investment
           annual_savings := roundTo 2 (material_cost_savings raw_materials)
           carbon_reduction := roundTo 2 (material_emission_reduction raw_materials)
           payback_years :=
             if 0 < material_cost_savings raw_materials then
               roundTo 1 (material_investment / material_cost_savings raw_materials)
             else 0
           roi_percent := roundTo 1 (material_roi raw_materials)
           priority := "Medium"
           is_combined := false }
  else none

/-- The individually gated scenarios, in the order `app.py` appends them. -/
def gatedScenarios (d : ActivityData) (raw_materials : ℚ) : List Scenario :=
  [solarScenario d, evScenario d, efficiencyScenario d, wasteScenario d,
   greenScenario d, materialScenario raw_materials].filterMap id

/-! Combined scenario (`app.py` lines 184-199). -/

def combined_investment (l : List Scenario) : ℚ :=
  ((l.filter fun s => decide (0 < s.investment)).map Scenario.investment).sum

def combined_savings (l : List Scenario) : ℚ := (l.map Scenario.annual_savings).sum

def combined_carbon (l : List Scenario) : ℚ := (l.map Scenario.carbon_reduction).sum

def combinedScenario (l : List Scenario) : Scenario :=
  { name := "Combined Optimization (All Measures)"
    investment := roundTo 2 (combined_investment l)
    annual_savings := roundTo 2 (combined_savings l)
    carbon_reduction := roundTo 2 (combined_carbon l)
    payback_years :=
      if 0 < combined_savings l then roundTo 1 (combined_investment l / combined_savings l)
      else 0
    roi_percent :=
      if 0 < combined_investment l then
        roundTo 1 (combined_savings l * 100 / combined_investment l)
      else 0
    priority := "Recommended"
    is_combined := true }

/-- Sort-key order of `scenarios.sort(key=lambda x: (x.get('is_combined',
False), -x['roi_percent']))`: lexicographic on (is_combined, -roi_percent)
with `false < true`.  Python's sort is stable and `List.insertionSort` is
stable, so sorting by this total preorder yields the same list. -/
def scenKeyLe (a b : Scenario) : Prop :=
  (a.is_combined = false ∧ b.is_combined = true) ∨
    (a.is_combined = b.is_combined ∧ b.roi_percent ≤ a.roi_percent)

instance : DecidableRel scenKeyLe := fun a b => by unfold scenKeyLe; infer_instance

/-- The full scenario pipeline of `calculate_scenarios` (`app.py` 38-204). -/
def calculate_scenarios (d : ActivityData) (raw_materials : ℚ) : List Scenario :=
  List.insertionSort scenKeyLe
    (gatedScenarios d raw_materials ++ [combinedScenario (gatedScenarios d raw_materials)])

/-! Emissions calculator: the POST branch of `index` (`app.py` 238-295). -/

/-- Scope-1 categories, in Python dict insertion order (`app.py` 238-247). -/
def scope1_categories (d : ActivityData) : List (String × ℚ) :=
  [("Diesel", d.diesel * FACTORS_diesel),
   ("Petrol", d.petrol * FACTORS_petrol),
   ("Natural Gas", d.natural_gas * FACTORS_natural_gas),
   ("Coal", d.coal * FACTORS_coal),
   ("LPG", d.lpg * FACTORS_lpg),
   ("Refrigerants", d.refrigerant_r22 * FACTORS_refrigerant_r22 +
      d.refrigerant_r410a * FACTORS_refrigerant_r410a +
      d.refrigerant_r134a * FACTORS_refrigerant_r134a)]

def scope1_total (d : ActivityData) : ℚ := ((scope1_categories d).map Prod.snd).sum

def grid_electricity (d : ActivityData) : ℚ := d.electricity * (1 - d.renewable / 100)

/-- Scope-2 categories (`app.py` 251-253). -/
def scope2_categories (d : ActivityData) : List (String × ℚ) :=
  [("Grid Electricity", grid_electricity d * FACTORS_electricity), ("Renewable", 0)]

def scope2_total (d : ActivityData) : ℚ := grid_electricity d * FACTORS_electricity

def scope3_RawMaterials (d : ActivityData) : ℚ :=
  d.steel * FACTORS_steel + d.cement * FACTORS_cement + d.aluminum * FACTORS_aluminum +
    d.plastic * FACTORS_plastic + d.paper * FACTORS_paper + d.glass * FACTORS_glass

def scope3_Logistics (d : ActivityData) : ℚ :=
  d.logistics_truck * FACTORS_logistics_truck + d.logistics_ship * FACTORS_logistics_ship +
    d.logistics_air * FACTORS_logistics_air

def scope3_Waste (d : ActivityData) : ℚ :=
  d.waste_landfill * FACTORS_waste_landfill + d.waste_recycled * FACTORS_waste_recycled

/-- Scope-3 categories (`app.py` 256-265). -/
def scope3_categories (d : ActivityData) : List (String × ℚ) :=
  [("Raw Materials", scope3_RawMaterials d),
   ("Logistics", scope3_Logistics d),
   ("Waste", scope3_Waste d)]

def scope3_total (d : ActivityData) : ℚ :=
  scope3_RawMaterials d + scope3_Logistics d + scope3_Waste d

/-- The variable `total` in `index` (`app.py` 268). -/
def total_emissions (d : ActivityData) : ℚ := scope1_total d + scope2_total d + scope3_total d

/-- All named scope categories in the order the three `by_source.update`
calls visit them; the 11 keys are pairwise distinct, so the dict union is
exactly this concatenation. -/
def allCategories (d : ActivityData) : List (String × ℚ) :=
  scope1_categories d ++ scope2_categories d ++ scope3_categories d

/-- The `by_source` dict (`app.py` 271-274): categories with strictly
positive (unrounded) value, each stored rounded to 2 decimal places. -/
def by_source (d : ActivityData) : List (String × ℚ) :=
  ((allCategories d).filter fun kv => decide (0 < kv.2)).map fun kv => (kv.1, roundTo 2 kv.2)

/-- A hotspot entry (`app.py` 294). -/
structure Hotspot where
  source : String
  emission : ℚ
  percent : ℚ
deriving DecidableEq

/-- Descending-by-emission order used for hotspots (`sorted(..., key=lambda
x: x['emission'], reverse=True)`); stable sort by this order matches
Python's `reverse=True` tie behaviour. -/
def hotLe (a b : Hotspot) : Prop := b.emission ≤ a.emission

instance : DecidableRel hotLe := fun a b => by unfold hotLe; infer_instance

/-- Left-to-right elaboration of the hotspot list comprehension: each entry
computes `v / total * 100`, and the first zero-denominator division aborts
the whole computation (as the Python comprehension would raise). -/
def hotspotList (total : ℚ) : List (String × ℚ) → Except String (List Hotspot)
  | [] => Except.ok []
  | kv :: rest =>
    match pydiv kv.2 total, hotspotList total rest with
    | Except.error e, _ => Except.error e
    | Except.ok _, Except.error e => Except.error e
    | Except.ok q, Except.ok hs =>
      Except.ok ({ source := kv.1, emission := kv.2, percent := q * 100 } :: hs)

/-- The hotspot computation (`app.py` 294-295): each by_source entry is
annotated with `v / total * 100` (Python float division, which raises on a
zero denominator), then sorted descending by emission and truncated to 5. -/
def hotspots (d : ActivityData) : Except String (List Hotspot) :=
  match hotspotList (total_emissions d) (by_source d) with
  | Except.error e => Except.error e
  | Except.ok items => Except.ok ((List.insertionSort hotLe items).take 5)

/-! Input coercion: `safe_float` (`app.py` 29-36) and the `data` dict
(`app.py` 212-235). -/

/-- A raw form value as seen by `request.form.get`: either absent (`None`)
or a string. -/
inductive FormValue where
  | missing : FormValue
  | str : String → FormValue
deriving DecidableEq

def natOfDigits (ds : List Char) : ℕ :=
  ds.foldl (fun a c => a * 10 + (c.toNat - 48)) 0

/-- Surrounding-whitespace stripping, as Python `float` applies to its
string argument, done on the character list. -/
def pyStrip (cs : List Char) : List Char :=
  ((cs.dropWhile Char.isWhitespace).reverse.dropWhile Char.isWhitespace).reverse

/-- Model of the Python `float` builtin on strings: strips surrounding
whitespace, then parses an optionally signed decimal with optional fraction
and optional exponent; `none` when the string is not a numeral (the Python
`inf`/`nan`/underscore spellings are outside the rational model). -/
def pyFloatParse (s : String) : Option ℚ :=
  let cs := pyStrip s.toList
  let (sign, cs) : ℚ × List Char :=
    match cs with
    | '+' :: t => (1, t)
    | '-' :: t => (-1, t)
    | t => (1, t)
  let (ip, cs) := cs.span (·.isDigit)
  let (fp, cs) : Option (List Char) × List Char :=
    match cs with
    | '.' :: t =>
      let (f, r) := t.span (·.isDigit)
      (some f, r)
    | t => (none, t)
  if ip.isEmpty ∧ (fp.getD []).isEmpty then none
  else
    let mantissa : ℚ :=
      (natOfDigits ip : ℚ) + (natOfDigits (fp.getD []) : ℚ) / 10 ^ (fp.getD []).length
    match cs with
    | [] => some (sign * mantissa)
    | 'e' :: t | 'E' :: t =>
      let (esign, t) : ℤ × List Char :=
        match t with
        | '+' :: u => (1, u)
        | '-' :: u => (-1, u)
        | u => (1, u)
      let (ed, t) := t.span (·.isDigit)
      if ed.isEmpty ∨ ¬t.isEmpty then none
      else some (sign * mantissa * (10 : ℚ) ^ (esign * (natOfDigits ed : ℤ)))
    | _ => none

/-- `safe_float` (`app.py` 29-36): `None` and `''` yield the default, an
unparseable string yields the default, a numeral yields its value. -/
def safe_float (value : FormValue) (default : ℚ) : ℚ :=
  match value with
  | FormValue.missing => default
  | FormValue.str s => if s = "" then default else (pyFloatParse s).getD default

/-- The `data` dict construction (`app.py` 212-235): every field defaults to
0, `production` defaults to 1. -/
def buildData (form : String → FormValue) : ActivityData :=
  { diesel := safe_float (form "diesel") 0
    petrol := safe_float (form "petrol") 0
    natural_gas := safe_float (form "natural_gas") 0
    coal := safe_float (form "coal") 0
    lpg := safe_float (form "lpg") 0
    electricity := safe_float (form "electricity") 0
    renewable := safe_float (form "renewable") 0
    refrigerant_r22 := safe_float (form "refrigerant_r22") 0
    refrigerant_r410a := safe_float (form "refrigerant_r410a") 0
    refrigerant_r134a := safe_float (form "refrigerant_r134a") 0
    steel := safe_float (form "steel") 0
    cement := safe_float (form "cement") 0
    aluminum := safe_float (form "aluminum") 0
    plastic := safe_float (form "plastic") 0
    paper := safe_float (form "paper") 0
    glass := safe_float (form "glass") 0
    logistics_truck := safe_float (form "logistics_truck") 0
    logistics_ship := safe_float (form "logistics_ship") 0
    logistics_air := safe_float (form "logistics_air") 0
    waste_landfill := safe_float (form "waste_landfill") 0
    waste_recycled := safe_float (form "waste_recycled") 0
    production := safe_float (form "production") 1 }

/-- The scenario list as `index` calls it (`app.py` 280): the raw-materials
argument is the computed Scope-3 "Raw Materials" value. -/
def scenariosOf (d : ActivityData) : List Scenario :=
  calculate_scenarios d (scope3_RawMaterials d)

/-! Concrete form inputs used by the claim theorems. -/

/-- The all-zero input (every form field coerces to 0). -/
def zeroData : ActivityData :=
  { diesel := 0, petrol := 0, natural_gas := 0, coal := 0, lpg := 0, electricity := 0,
    renewable := 0, refrigerant_r22 := 0, refrigerant_r410a := 0, refrigerant_r134a := 0,
    steel := 0, cement := 0, aluminum := 0, plastic := 0, paper := 0, glass := 0,
    logistics_truck := 0, logistics_ship := 0, logistics_air := 0,
    waste_landfill := 0, waste_recycled := 0, production := 0 }

/-- The spec's worked example: electricity 10000, renewable 0, all else 0. -/
def d8ex : ActivityData := { zeroData with electricity := 10000 }

/-- electricity 100 and diesel 1800 make the Solar and EV scenarios tie at
roi_percent 2.1. -/
def dTie : ActivityData := { zeroData with electricity := 100, diesel := 1800 }

/-- A non-negative input with renewable share above 100 percent. -/
def dOverRenew : ActivityData := { zeroData with electricity := 1000, renewable := 200 }

/-- A non-negative input whose grand total is exactly zero while `by_source`
is non-empty: scope 2 is -0.71 and the coal line is +0.71. -/
def dZeroTotal : ActivityData :=
  { zeroData with electricity := 1000, renewable := 200, coal := 71 / 286 }

/-- diesel 1 litre: the Diesel category is 0.00268, positive but rounding
to 0.00. -/
def dDiesel1 : ActivityData := { zeroData with diesel := 1 }

/-- electricity 0.001: the Solar scenario's savings round to 0 while its
payback stays 47.1. -/
def dTinyA : ActivityData := { zeroData with electricity := 1 / 1000 }

/-- electricity 0.00001: the Solar scenario's investment rounds to 0 while
its roi stays 2.1. -/
def dTinyB : ActivityData := { zeroData with electricity := 1 / 100000 }

/-- All four gated numeric figures of a scenario are zero. -/
def AllZero (s : Scenario) : Prop :=
  s.investment = 0 ∧ s.annual_savings = 0 ∧ s.carbon_reduction = 0 ∧ s.roi_percent = 0

instance : DecidablePred AllZero := fun s => by unfold AllZero; infer_instance

/-- A rational is an exact multiple of 1/100 (the shape every value rounded
to 2 decimal places has). -/
def IsCent (x : ℚ) : Prop := ∃ k : ℤ, x = (k : ℚ) / 100

/-- Every form field is non-negative (the spec's ActivityInput domain). -/
def NonnegInput (d : ActivityData) : Prop :=
  0 ≤ d.diesel ∧ 0 ≤ d.petrol ∧ 0 ≤ d.natural_gas ∧ 0 ≤ d.coal ∧ 0 ≤ d.lpg ∧
    0 ≤ d.electricity ∧ 0 ≤ d.renewable ∧ 0 ≤ d.refrigerant_r22 ∧ 0 ≤ d.refrigerant_r410a ∧
    0 ≤ d.refrigerant_r134a ∧ 0 ≤ d.steel ∧ 0 ≤ d.cement ∧ 0 ≤ d.aluminum ∧ 0 ≤ d.plastic ∧
    0 ≤ d.paper ∧ 0 ≤ d.glass ∧ 0 ≤ d.logistics_truck ∧ 0 ≤ d.logistics_ship ∧
    0 ≤ d.logistics_air ∧ 0 ≤ d.waste_landfill ∧ 0 ≤ d.waste_recycled ∧ 0 ≤ d.production

instance : IsTotal Scenario scenKeyLe := by
  constructor
  intro a b
  unfold scenKeyLe
  cases ha : a.is_combined <;> cases hb : b.is_combined <;> simp [ha, hb] <;>
    exact le_total _ _

instance : IsTrans Scenario scenKeyLe := by
  constructor
  intro a b c hab hbc
  unfold scenKeyLe at hab hbc ⊢
  rcases hab with ⟨ha, hb⟩ | ⟨hab, hr1⟩ <;> rcases hbc with ⟨hb2, hc⟩ | ⟨hbc2, hr2⟩
  · exact Or.inl ⟨ha, hc⟩
  · exact Or.inl ⟨ha, by rw [← hbc2]; exact hb⟩
  · exact Or.inl ⟨by rw [hab]; exact hb2, hc⟩
  · exact Or.inr ⟨hab.trans hbc2, le_trans hr2 hr1⟩

/-! Shared lemmas about rounding and the scenario pipeline. -/

lemma roundTo_zero (n : ℕ) : roundTo n 0 = 0 := by
  unfold roundTo
  norm_num

lemma roundTo_nonneg (n : ℕ) {x : ℚ} (h : 0 ≤ x) : 0 ≤ roundTo n x := by
  unfold roundTo
  have hx : (0 : ℚ) ≤ x * 10 ^ n := by positivity
  have hr : (0 : ℤ) ≤ round (x * 10 ^ n) := by
    rw [round_eq]
    exact Int.floor_nonneg.2 (by linarith)
  have : (0 : ℚ) ≤ (round (x * 10 ^ n) : ℚ) := by exact_mod_cast hr
  positivity

lemma roundTo2_ge (x : ℚ) : x - 1 / 200 ≤ roundTo 2 x := by
  unfold roundTo
  rw [round_eq]
  have h : x * 10 ^ 2 + 1 / 2 - 1 < (⌊x * 10 ^ 2 + 1 / 2⌋ : ℚ) := Int.sub_one_lt_floor _
  rw [le_div_iff₀ (by norm_num : (0 : ℚ) < 10 ^ 2)]
  nlinarith

lemma isCent_zero : IsCent 0 := ⟨0, by norm_num⟩

lemma isCent_roundTo2 (x : ℚ) : IsCent (roundTo 2 x) :=
  ⟨round (x * 10 ^ 2), by unfold roundTo; norm_num⟩

lemma isCent_add {x y : ℚ} (hx : IsCent x) (hy : IsCent y) : IsCent (x + y) := by
  obtain ⟨a, rfl⟩ := hx
  obtain ⟨b, rfl⟩ := hy
  exact ⟨a + b, by push_cast; ring⟩

lemma isCent_sum {l : List ℚ} (h : ∀ x ∈ l, IsCent x) : IsCent l.sum := by
  induction l with
  | nil => simpa using isCent_zero
  | cons a t ih =>
    rw [List.sum_cons]
    exact isCent_add (h a (List.mem_cons_self a t))
      (ih fun x hx => h x (List.mem_cons_of_mem a hx))

lemma roundTo2_isCent_eq {x : ℚ} (h : IsCent x) : roundTo 2 x = x := by
  obtain ⟨k, rfl⟩ := h
  unfold roundTo
  have h1 : (k : ℚ) / 100 * 10 ^ 2 = (k : ℚ) := by norm_num
  rw [h1, round_intCast]
  norm_num

/-- Inversion for the common `if gate then some record else none` shape of
the six scenario builders. -/
lemma of_ite_some {c : Prop} [Decidable c] {r s : Scenario}
    (h : (if c then some r else none) = some s) : c ∧ s = r := by
  by_cases hc : c
  · rw [if_pos hc] at h
    exact ⟨hc, (Option.some_inj.mp h).symm⟩
  · rw [if_neg hc] at h
    exact absurd h (by simp)

lemma mem_gated {d : ActivityData} {q : ℚ} {s : Scenario} (hs : s ∈ gatedScenarios d q) :
    solarScenario d = some s ∨ evScenario d = some s ∨ efficiencyScenario d = some s ∨
      wasteScenario d = some s ∨ greenScenario d = some s ∨ materialScenario q = some s := by
  simp only [gatedScenarios, List.mem_filterMap, List.mem_cons, List.not_mem_nil, or_false,
    id_eq] at hs
  obtain ⟨a, hmem, rfl⟩ := hs
  rcases hmem with h | h | h | h | h | h
  · exact Or.inl h.symm
  · exact Or.inr (Or.inl h.symm)
  · exact Or.inr (Or.inr (Or.inl h.symm))
  · exact Or.inr (Or.inr (Or.inr (Or.inl h.symm)))
  · exact Or.inr (Or.inr (Or.inr (Or.inr (Or.inl h.symm))))
  · exact Or.inr (Or.inr (Or.inr (Or.inr (Or.inr h.symm))))

lemma gated_not_combined {d : ActivityData} {q : ℚ} :
    ∀ s ∈ gatedScenarios d q, s.is_combined = false := by
  intro s hs
  rcases mem_gated hs with h | h | h | h | h | h <;>
    · obtain ⟨-, rfl⟩ := of_ite_some h
      rfl

lemma gated_isCent {d : ActivityData} {q : ℚ} :
    ∀ s ∈ gatedScenarios d q,
      IsCent s.investment ∧ IsCent s.annual_savings ∧ IsCent s.carbon_reduction := by
  intro s hs
  rcases mem_gated hs with h | h | h | h | h | h <;>
    obtain ⟨-, rfl⟩ := of_ite_some h
  · exact ⟨isCent_roundTo2 _, isCent_roundTo2 _, isCent_roundTo2 _⟩
  · exact ⟨isCent_roundTo2 _, isCent_roundTo2 _, isCent_roundTo2 _⟩
  · exact ⟨isCent_roundTo2 _, isCent_roundTo2 _, isCent_roundTo2 _⟩
  · exact ⟨isCent_roundTo2 _, isCent_roundTo2 _, isCent_roundTo2 _⟩
  · exact ⟨isCent_zero, isCent_roundTo2 _, isCent_roundTo2 _⟩
  · exact ⟨isCent_roundTo2 _, isCent_roundTo2 _, isCent_roundTo2 _⟩

lemma calc_perm (d : ActivityData) (q : ℚ) :
    (calculate_scenarios d q).Perm
      (gatedScenarios d q ++ [combinedScenario (gatedScenarios d q)]) :=
  List.perm_insertionSort scenKeyLe _

lemma calc_sorted (d : ActivityData) (q : ℚ) :
    List.Sorted scenKeyLe (calculate_scenarios d q) :=
  List.sorted_insertionSort scenKeyLe _

lemma calc_countP_one (d : ActivityData) (q : ℚ) :
    (calculate_scenarios d q).countP (fun s => s.is_combined) = 1 := by
  rw [(calc_perm d q).countP_eq]
  rw [List.countP_append]
  have h0 : (gatedScenarios d q).countP (fun s => s.is_combined) = 0 :=
    List.countP_eq_zero.2 fun s hs => by
      simp [gated_not_combined s hs]
  rw [h0]
  rfl

lemma calc_ne_nil (d : ActivityData) (q : ℚ) : calculate_scenarios d q ≠ [] := by
  have h := (calc_perm d q).length_eq
  rw [List.length_append] at h
  intro hnil
  rw [hnil] at h
  simp at h

lemma mem_calc_combined_eq {d : ActivityData} {q : ℚ} {s : Scenario}
    (hs : s ∈ calculate_scenarios d q) (h : s.is_combined = true) :
    s = combinedScenario (gatedScenarios d q) := by
  have hmem := (calc_perm d q).mem_iff.mp hs
  rcases List.mem_append.mp hmem with hg | hc
  · have hf := gated_not_combined s hg
    rw [h] at hf
    exact Bool.noConfusion hf
  · simpa using hc

lemma filter_calc_perm (d : ActivityData) (q : ℚ) (p : Scenario → Bool)
    (hp : p (combinedScenario (gatedScenarios d q)) = false) :
    ((calculate_scenarios d q).filter p).Perm ((gatedScenarios d q).filter p) := by
  refine ((calc_perm d q).filter p).trans ?_
  rw [List.filter_append]
  have h1 : [combinedScenario (gatedScenarios d q)].filter p = [] := by
    simp [List.filter_cons, hp]
  rw [h1, List.append_nil]

lemma sum_map_filter_calc (d : ActivityData) (q : ℚ) (p : Scenario → Bool) (f : Scenario → ℚ)
    (hp : p (combinedScenario (gatedScenarios d q)) = false) :
    (((calculate_scenarios d q).filter p).map f).sum =
      (((gatedScenarios d q).filter p).map f).sum :=
  ((filter_calc_perm d q p hp).map f).sum_eq

lemma calc_getLast_combined (d : ActivityData) (q : ℚ) (h : calculate_scenarios d q ≠ []) :
    ((calculate_scenarios d q).getLast h).is_combined = true := by
  have hc_mem : combinedScenario (gatedScenarios d q) ∈ calculate_scenarios d q :=
    (calc_perm d q).mem_iff.mpr (List.mem_append_right _ (List.mem_singleton_self _))
  obtain ⟨i, hi⟩ := List.mem_iff_get.mp hc_mem
  have hlen : 0 < (calculate_scenarios d q).length := List.length_pos.mpr h
  have hgen : ∀ k : Fin (calculate_scenarios d q).length, i < k →
      ((calculate_scenarios d q).get k).is_combined = true := by
    intro k hik
    have hrel := (calc_sorted d q).rel_get_of_lt hik
    unfold scenKeyLe at hrel
    rw [hi] at hrel
    rcases hrel with ⟨hc, -⟩ | ⟨hc, -⟩
    · exact absurd hc (by simp [combinedScenario])
    · rw [← hc]
      rfl
  have hmyfin : (calculate_scenarios d q).getLast h =
      (calculate_scenarios d q).get ⟨(calculate_scenarios d q).length - 1, by omega⟩ := by
    rw [List.getLast_eq_getElem]
    rfl
  rw [hmyfin]
  have hile : i.1 ≤ (calculate_scenarios d q).length - 1 := Nat.le_pred_of_lt i.isLt
  rcases lt_or_eq_of_le hile with hlt | heq
  · exact hgen _ hlt
  · have hfi : (⟨(calculate_scenarios d q).length - 1, by omega⟩ :
        Fin (calculate_scenarios d q).length) = i := Fin.ext heq.symm
    rw [hfi, hi]
    rfl

/-- Claim C10: for every input (also when no individual gate holds),
`calculate_scenarios` returns a non-empty list holding exactly one scenario
flagged `is_combined`, and that scenario's priority label is "Recommended";
the combined scenario is appended unconditionally, never gated. -/
theorem c10_combined_always_emitted (d : ActivityData) (q : ℚ) :
    calculate_scenarios d q ≠ [] ∧
      (calculate_scenarios d q).countP (fun s => s.is_combined) = 1 ∧
      ∀ s ∈ calculate_scenarios d q, s.is_combined = true → s.priority = "Recommended" := by
  refine ⟨calc_ne_nil d q, calc_countP_one d q, ?_⟩
  intro s hs hcomb
  rw [mem_calc_combined_eq hs hcomb]
  rfl

/-- Claim C5 (amended): in every output of `calculate_scenarios`, the
non-combined scenarios appear in non-increasing roi_percent order (any
earlier non-combined scenario has roi_percent ≥ any later one) and the
combined scenario is always the last element, with every earlier element
non-combined.  The original claim's "A appears before B iff A.roi_percent ≥
B.roi_percent" fails on ties (see the counterexample); only the "A before B
implies A.roi_percent ≥ B.roi_percent" direction holds. -/
theorem c5_sorted_by_roi (d : ActivityData) (q : ℚ) :
    (∀ i j : Fin (calculate_scenarios d q).length, i < j →
      ((calculate_scenarios d q).get i).is_combined = false →
      ((calculate_scenarios d q).get j).is_combined = false →
      ((calculate_scenarios d q).get j).roi_percent ≤
        ((calculate_scenarios d q).get i).roi_percent) ∧
    ∀ h : calculate_scenarios d q ≠ [],
      ((calculate_scenarios d q).getLast h).is_combined = true ∧
      ∀ s ∈ (calculate_scenarios d q).dropLast, s.is_combined = false := by
  constructor
  · intro i j hij hi hj
    have hrel := (calc_sorted d q).rel_get_of_lt hij
    unfold scenKeyLe at hrel
    rcases hrel with ⟨-, hcj⟩ | ⟨-, hr⟩
    · rw [hj] at hcj
      exact Bool.noConfusion hcj
    · exact hr
  · intro h
    have hlast := calc_getLast_combined d q h
    refine ⟨hlast, ?_⟩
    have hsplit := List.dropLast_append_getLast h
    have hcount := calc_countP_one d q
    rw [← hsplit, List.countP_append] at hcount
    have h1 : ([(calculate_scenarios d q).getLast h]).countP (fun s => s.is_combined) = 1 := by
      simp [List.countP_cons, hlast]
    rw [h1] at hcount
    have h0 : ((calculate_scenarios d q).dropLast).countP (fun s => s.is_combined) = 0 := by
      omega
    intro s hs
    have hns := List.countP_eq_zero.mp h0 s hs
    simpa using hns

/-- Claim C2 (amended): the output is exactly the gated scenarios plus the
unconditional combined one; each of the six scenarios is present iff its
applicability predicate over the raw input holds; and each emitted scenario
other than Green Energy Procurement never has investment, annual_savings,
carbon_reduction and roi_percent all zero.  The original claim's "no emitted
scenario is ever all-zero" fails for Green Energy Procurement (see the
counterexample), whose gate (renewable < 50) can hold with no driving
electricity data. -/
theorem c2_gating (d : ActivityData) (q : ℚ) :
    (calculate_scenarios d q).Perm
      (gatedScenarios d q ++ [combinedScenario (gatedScenarios d q)]) ∧
    ((solarScenario d).isSome ↔ 0 < d.electricity) ∧
    ((evScenario d).isSome ↔ (1000 < d.diesel ∨ 500 < d.petrol)) ∧
    ((efficiencyScenario d).isSome ↔ 0 < d.electricity) ∧
    ((wasteScenario d).isSome ↔ 0 < d.waste_landfill) ∧
    ((greenScenario d).isSome ↔ d.renewable < 50) ∧
    ((materialScenario q).isSome ↔ 10 < q) ∧
    (∀ s, solarScenario d = some s → ¬AllZero s) ∧
    (∀ s, evScenario d = some s → ¬AllZero s) ∧
    (∀ s, efficiencyScenario d = some s → ¬AllZero s) ∧
    (∀ s, wasteScenario d = some s → ¬AllZero s) ∧
    (∀ s, materialScenario q = some s → ¬AllZero s) := by
  refine ⟨calc_perm d q, ?_, ?_, ?_, ?_, ?_, ?_, ?_, ?_, ?_, ?_, ?_⟩
  · unfold solarScenario
    split_ifs with hc <;> simp [hc]
  · unfold evScenario
    split_ifs with hc <;> simp [hc]
  · unfold efficiencyScenario
    split_ifs with hc <;> simp [hc]
  · unfold wasteScenario
    split_ifs with hc <;> simp [hc]
  · unfold greenScenario
    split_ifs with hc <;> simp [hc]
  · unfold materialScenario
    split_ifs with hc <;> simp [hc]
  · intro s h hz
    obtain ⟨he, rfl⟩ := of_ite_some
      (show (if 0 < d.electricity then some _ else none) = some s from h)
    unfold AllZero at hz
    have h4 := hz.2.2.2
    have hne := he.ne'
    have hinv : solar_investment d = d.electricity * 160 := by
      unfold solar_investment system_size_kw solar_kwh
      ring
    have hpos : 0 < solar_investment d := by
      rw [hinv]
      exact mul_pos he (by norm_num)
    have hsav : solar_energy_savings d = d.electricity * (17 / 5) := by
      unfold solar_energy_savings solar_kwh ENERGY_COSTS_electricity
      norm_num
      ring
    have hroi : solar_roi d = 17 / 8 := by
      unfold solar_roi
      rw [if_pos hpos, hinv, hsav]
      field_simp
      ring
    have h4b : roundTo 1 (solar_roi d) = 0 := h4
    rw [hroi] at h4b
    norm_num [roundTo, round_eq] at h4b
  · intro s h hz
    obtain ⟨hg, rfl⟩ := of_ite_some
      (show (if 1000 < d.diesel ∨ 500 < d.petrol then some _ else none) = some s from h)
    unfold AllZero at hz
    have h1 := hz.1
    have hub : (1500000 : ℚ) ≤ ev_investment d := by
      unfold ev_investment
      have hv : (1 : ℤ) ≤ vehicles_to_replace d := le_max_left 1 _
      have hvq : (1 : ℚ) ≤ (vehicles_to_replace d : ℚ) := by exact_mod_cast hv
      nlinarith
    have hge := roundTo2_ge (ev_investment d)
    have h1b : roundTo 2 (ev_investment d) = 0 := h1
    rw [h1b] at hge
    linarith
  · intro s h hz
    obtain ⟨he, rfl⟩ := of_ite_some
      (show (if 0 < d.electricity then some _ else none) = some s from h)
    unfold AllZero at hz
    have h4 := hz.2.2.2
    have hne := he.ne'
    have hinv : efficiency_investment d = d.electricity * (1 / 2) := by
      unfold efficiency_investment
      norm_num
    have hpos : 0 < efficiency_investment d := by
      rw [hinv]
      exact mul_pos he (by norm_num)
    have hsav : efficiency_cost_savings d = d.electricity * (51 / 40) := by
      unfold efficiency_cost_savings kwh_saved ENERGY_COSTS_electricity
      norm_num
      ring
    have hroi : efficiency_roi d = 255 := by
      unfold efficiency_roi
      rw [if_pos hpos, hinv, hsav]
      field_simp
      ring
    have h4b : roundTo 1 (efficiency_roi d) = 0 := h4
    rw [hroi] at h4b
    norm_num [roundTo, round_eq] at h4b
  · intro s h hz
    obtain ⟨hw, rfl⟩ := of_ite_some
      (show (if 0 < d.waste_landfill then some _ else none) = some s from h)
    unfold AllZero at hz
    have h1 := hz.1
    have hub : (300000 : ℚ) < waste_investment d := by
      unfold waste_investment
      nlinarith
    have hge := roundTo2_ge (waste_investment d)
    have h1b : roundTo 2 (waste_investment d) = 0 := h1
    rw [h1b] at hge
    linarith
  · intro s h hz
    obtain ⟨-, rfl⟩ := of_ite_some
      (show (if 10 < q then some _ else none) = some s from h)
    unfold AllZero at hz
    have h1b : roundTo 2 material_investment = 0 := hz.1
    rw [roundTo2_isCent_eq ⟨50000000, by norm_num [material_investment]⟩] at h1b
    norm_num [material_investment] at h1b

/-- Claim C6: in every output, the combined scenario's investment equals the
sum of the positive investments of the other emitted scenarios, its
annual_savings equals the sum of all their annual_savings, and its
carbon_reduction equals the sum of all their carbon_reduction values
exactly — hence in particular within the claim's 1e-6 tolerance. -/
theorem c6_combined_sums (d : ActivityData) (q : ℚ) (c : Scenario)
    (hc : c ∈ calculate_scenarios d q) (hcomb : c.is_combined = true) :
    c.investment =
      (((calculate_scenarios d q).filter fun s =>
        !s.is_combined && decide (0 < s.investment)).map Scenario.investment).sum ∧
    c.annual_savings =
      (((calculate_scenarios d q).filter fun s => !s.is_combined).map
        Scenario.annual_savings).sum ∧
    c.carbon_reduction =
      (((calculate_scenarios d q).filter fun s => !s.is_combined).map
        Scenario.carbon_reduction).sum ∧
    |c.carbon_reduction -
        (((calculate_scenarios d q).filter fun s => !s.is_combined).map
          Scenario.carbon_reduction).sum| ≤ 1 / 1000000 := by
  obtain rfl := mem_calc_combined_eq hc hcomb
  have hinv_eq : (((calculate_scenarios d q).filter fun s =>
      !s.is_combined && decide (0 < s.investment)).map Scenario.investment).sum =
      combined_investment (gatedScenarios d q) := by
    rw [sum_map_filter_calc d q _ _ (by simp [combinedScenario])]
    unfold combined_investment
    congr 1
    congr 1
    apply List.filter_congr
    intro s hs
    simp [gated_not_combined s hs]
  have hsav_eq : (((calculate_scenarios d q).filter fun s => !s.is_combined).map
      Scenario.annual_savings).sum = combined_savings (gatedScenarios d q) := by
    rw [sum_map_filter_calc d q _ _ (by simp [combinedScenario])]
    unfold combined_savings
    congr 1
    congr 1
    exact List.filter_eq_self.mpr fun s hs => by simp [gated_not_combined s hs]
  have hcar_eq : (((calculate_scenarios d q).filter fun s => !s.is_combined).map
      Scenario.carbon_reduction).sum = combined_carbon (gatedScenarios d q) := by
    rw [sum_map_filter_calc d q _ _ (by simp [combinedScenario])]
    unfold combined_carbon
    congr 1
    congr 1
    exact List.filter_eq_self.mpr fun s hs => by simp [gated_not_combined s hs]
  have hcent_inv : IsCent (combined_investment (gatedScenarios d q)) := by
    unfold combined_investment
    apply isCent_sum
    intro x hx
    obtain ⟨s, hsf, rfl⟩ := List.mem_map.mp hx
    exact (gated_isCent s (List.mem_of_mem_filter hsf)).1
  have hcent_sav : IsCent (combined_savings (gatedScenarios d q)) := by
    unfold combined_savings
    apply isCent_sum
    intro x hx
    obtain ⟨s, hsf, rfl⟩ := List.mem_map.mp hx
    exact (gated_isCent s hsf).2.1
  have hcent_car : IsCent (combined_carbon (gatedScenarios d q)) := by
    unfold combined_carbon
    apply isCent_sum
    intro x hx
    obtain ⟨s, hsf, rfl⟩ := List.mem_map.mp hx
    exact (gated_isCent s hsf).2.2
  have e1 : (combinedScenario (gatedScenarios d q)).investment =
      combined_investment (gatedScenarios d q) := roundTo2_isCent_eq hcent_inv
  have e2 : (combinedScenario (gatedScenarios d q)).annual_savings =
      combined_savings (gatedScenarios d q) := roundTo2_isCent_eq hcent_sav
  have e3 : (combinedScenario (gatedScenarios d q)).carbon_reduction =
      combined_carbon (gatedScenarios d q) := roundTo2_isCent_eq hcent_car
  refine ⟨by rw [e1, hinv_eq], by rw [e2, hsav_eq], by rw [e3, hcar_eq], ?_⟩
  rw [e3, hcar_eq, sub_self, abs_zero]
  norm_num

/-- Claim C7 (amended): for every emitted scenario, the division guards for
payback_years and roi_percent read the scenario's unrounded annual savings
and unrounded investment (not the stored rounded fields): payback_years is 0
when the unrounded savings are ≤ 0 and otherwise round1(investment ÷
savings); roi_percent is 0 when the unrounded investment is ≤ 0 and
otherwise round1(savings × 100 ÷ investment), with Green Energy
Procurement's sentinel 999 exactly when its net savings are positive.  In
the exact-rational model no field can be NaN or infinite.  The original
claim, which reads the guards on the stored rounded fields, fails (see the
counterexample). -/
theorem c7_guard_semantics (d : ActivityData) (q : ℚ) :
    (∀ s, solarScenario d = some s →
      (solar_energy_savings d ≤ 0 → s.payback_years = 0) ∧
      (0 < solar_energy_savings d →
        s.payback_years = roundTo 1 (solar_investment d / solar_energy_savings d)) ∧
      (solar_investment d ≤ 0 → s.roi_percent = 0) ∧
      (0 < solar_investment d →
        s.roi_percent = roundTo 1 (solar_energy_savings d * 100 / solar_investment d))) ∧
    (∀ s, evScenario d = some s →
      (ev_fuel_savings d ≤ 0 → s.payback_years = 0) ∧
      (0 < ev_fuel_savings d →
        s.payback_years = roundTo 1 (ev_investment d / ev_fuel_savings d)) ∧
      (ev_investment d ≤ 0 → s.roi_percent = 0) ∧
      (0 < ev_investment d →
        s.roi_percent = roundTo 1 (ev_fuel_savings d * 100 / ev_investment d))) ∧
    (∀ s, efficiencyScenario d = some s →
      (efficiency_cost_savings d ≤ 0 → s.payback_years = 0) ∧
      (0 < efficiency_cost_savings d →
        s.payback_years = roundTo 1 (efficiency_investment d / efficiency_cost_savings d)) ∧
      (efficiency_investment d ≤ 0 → s.roi_percent = 0) ∧
      (0 < efficiency_investment d →
        s.roi_percent = roundTo 1 (efficiency_cost_savings d * 100 / efficiency_investment d))) ∧
    (∀ s, wasteScenario d = some s →
      (waste_cost_savings d ≤ 0 → s.payback_years = 0) ∧
      (0 < waste_cost_savings d →
        s.payback_years = roundTo 1 (waste_investment d / waste_cost_savings d)) ∧
      (waste_investment d ≤ 0 → s.roi_percent = 0) ∧
      (0 < waste_investment d →
        s.roi_percent = roundTo 1 (waste_cost_savings d * 100 / waste_investment d))) ∧
    (∀ s, greenScenario d = some s →
      s.payback_years = 0 ∧
      (net_renewable_savings d ≤ 0 → s.roi_percent = 0) ∧
      (0 < net_renewable_savings d → s.roi_percent = 999)) ∧
    (∀ s, materialScenario q = some s →
      (material_cost_savings q ≤ 0 → s.payback_years = 0) ∧
      (0 < material_cost_savings q →
        s.payback_years = roundTo 1 (material_investment / material_cost_savings q)) ∧
      (material_investment ≤ 0 → s.roi_percent = 0) ∧
      (0 < material_investment →
        s.roi_percent = roundTo 1 (material_cost_savings q * 100 / material_investment))) ∧
    ((combined_savings (gatedScenarios d q) ≤ 0 →
        (combinedScenario (gatedScenarios d q)).payback_years = 0) ∧
      (0 < combined_savings (gatedScenarios d q) →
        (combinedScenario (gatedScenarios d q)).payback_years =
          roundTo 1 (combined_investment (gatedScenarios d q) /
            combined_savings (gatedScenarios d q))) ∧
      (combined_investment (gatedScenarios d q) ≤ 0 →
        (combinedScenario (gatedScenarios d q)).roi_percent = 0) ∧
      (0 < combined_investment (gatedScenarios d q) →
        (combinedScenario (gatedScenarios d q)).roi_percent =
          roundTo 1 (combined_savings (gatedScenarios d q) * 100 /
            combined_investment (gatedScenarios d q)))) := by
  refine ⟨?_, ?_, ?_, ?_, ?_, ?_, ?_⟩
  · intro s h
    obtain ⟨-, rfl⟩ := of_ite_some
      (show (if 0 < d.electricity then some _ else none) = some s from h)
    refine ⟨fun hle => ?_, fun hgt => ?_, fun hle => ?_, fun hgt => ?_⟩
    · show (if 0 < solar_energy_savings d then
          roundTo 1 (solar_investment d / solar_energy_savings d) else 0) = 0
      rw [if_neg (not_lt.2 hle)]
    · show (if 0 < solar_energy_savings d then
          roundTo 1 (solar_investment d / solar_energy_savings d) else 0) =
        roundTo 1 (solar_investment d / solar_energy_savings d)
      rw [if_pos hgt]
    · show roundTo 1 (solar_roi d) = 0
      unfold solar_roi
      rw [if_neg (not_lt.2 hle)]
      exact roundTo_zero 1
    · show roundTo 1 (solar_roi d) =
        roundTo 1 (solar_energy_savings d * 100 / solar_investment d)
      unfold solar_roi
      rw [if_pos hgt]
  · intro s h
    obtain ⟨-, rfl⟩ := of_ite_some
      (show (if 1000 < d.diesel ∨ 500 < d.petrol then some _ else none) = some s from h)
    refine ⟨fun hle => ?_, fun hgt => ?_, fun hle => ?_, fun hgt => ?_⟩
    · show (if 0 < ev_fuel_savings d then
          roundTo 1 (ev_investment d / ev_fuel_savings d) else 0) = 0
      rw [if_neg (not_lt.2 hle)]
    · show (if 0 < ev_fuel_savings d then
          roundTo 1 (ev_investment d / ev_fuel_savings d) else 0) =
        roundTo 1 (ev_investment d / ev_fuel_savings d)
      rw [if_pos hgt]
    · show roundTo 1 (ev_roi d) = 0
      unfold ev_roi
      rw [if_neg (not_lt.2 hle)]
      exact roundTo_zero 1
    · show roundTo 1 (ev_roi d) = roundTo 1 (ev_fuel_savings d * 100 / ev_investment d)
      unfold ev_roi
      rw [if_pos hgt]
  · intro s h
    obtain ⟨-, rfl⟩ := of_ite_some
      (show (if 0 < d.electricity then some _ else none) = some s from h)
    refine ⟨fun hle => ?_, fun hgt => ?_, fun hle => ?_, fun hgt => ?_⟩
    · show (if 0 < efficiency_cost_savings d then
          roundTo 1 (efficiency_investment d / efficiency_cost_savings d) else 0) = 0
      rw [if_neg (not_lt.2 hle)]
    · show (if 0 < efficiency_cost_savings d then
          roundTo 1 (efficiency_investment d / efficiency_cost_savings d) else 0) =
        roundTo 1 (efficiency_investment d / efficiency_cost_savings d)
      rw [if_pos hgt]
    · show roundTo 1 (efficiency_roi d) = 0
      unfold efficiency_roi
      rw [if_neg (not_lt.2 hle)]
      exact roundTo_zero 1
    · show roundTo 1 (efficiency_roi d) =
        roundTo 1 (efficiency_cost_savings d * 100 / efficiency_investment d)
      unfold efficiency_roi
      rw [if_pos hgt]
  · intro s h
    obtain ⟨-, rfl⟩ := of_ite_some
      (show (if 0 < d.waste_landfill then some _ else none) = some s from h)
    refine ⟨fun hle => ?_, fun hgt => ?_, fun hle => ?_, fun hgt => ?_⟩
    · show (if 0 < waste_cost_savings d then
          roundTo 1 (waste_investment d / waste_cost_savings d) else 0) = 0
      rw [if_neg (not_lt.2 hle)]
    · show (if 0 < waste_cost_savings d then
          roundTo 1 (waste_investment d / waste_cost_savings d) else 0) =
        roundTo 1 (waste_investment d / waste_cost_savings d)
      rw [if_pos hgt]
    · show roundTo 1 (waste_roi d) = 0
      unfold waste_roi
      rw [if_neg (not_lt.2 hle)]
      exact roundTo_zero 1
    · show roundTo 1 (waste_roi d) =
        roundTo 1 (waste_cost_savings d * 100 / waste_investment d)
      unfold waste_roi
      rw [if_pos hgt]
  · intro s h
    obtain ⟨-, rfl⟩ := of_ite_some
      (show (if d.renewable < 50 then some _ else none) = some s from h)
    refine ⟨rfl, fun hle => ?_, fun hgt => ?_⟩
    · show (if 0 < net_renewable_savings d then (999 : ℚ) else 0) = 0
      rw [if_neg (not_lt.2 hle)]
    · show (if 0 < net_renewable_savings d then (999 : ℚ) else 0) = 999
      rw [if_pos hgt]
  · intro s h
    obtain ⟨-, rfl⟩ := of_ite_some
      (show (if 10 < q then some _ else none) = some s from h)
    refine ⟨fun hle => ?_, fun hgt => ?_, fun hle => ?_, fun hgt => ?_⟩
    · show (if 0 < material_cost_savings q then
          roundTo 1 (material_investment / material_cost_savings q) else 0) = 0
      rw [if_neg (not_lt.2 hle)]
    · show (if 0 < material_cost_savings q then
          roundTo 1 (material_investment / material_cost_savings q) else 0) =
        roundTo 1 (material_investment / material_cost_savings q)
      rw [if_pos hgt]
    · show roundTo 1 (material_roi q) = 0
      unfold material_roi
      rw [if_neg (not_lt.2 hle)]
      exact roundTo_zero 1
    · show roundTo 1 (material_roi q) =
        roundTo 1 (material_cost_savings q * 100 / material_investment)
      unfold material_roi
      rw [if_pos hgt]
  · refine ⟨fun hle => ?_, fun hgt => ?_, fun hle => ?_, fun hgt => ?_⟩
    · show (if 0 < combined_savings (gatedScenarios d q) then
          roundTo 1 (combined_investment (gatedScenarios d q) /
            combined_savings (gatedScenarios d q)) else 0) = 0
      rw [if_neg (not_lt.2 hle)]
    · show (if 0 < combined_savings (gatedScenarios d q) then
          roundTo 1 (combined_investment (gatedScenarios d q) /
            combined_savings (gatedScenarios d q)) else 0) =
        roundTo 1 (combined_investment (gatedScenarios d q) /
          combined_savings (gatedScenarios d q))
      rw [if_pos hgt]
    · show (if 0 < combined_investment (gatedScenarios d q) then
          roundTo 1 (combined_savings (gatedScenarios d q) * 100 /
            combined_investment (gatedScenarios d q)) else 0) = 0
      rw [if_neg (not_lt.2 hle)]
    · show (if 0 < combined_investment (gatedScenarios d q) then
          roundTo 1 (combined_savings (gatedScenarios d q) * 100 /
            combined_investment (gatedScenarios d q)) else 0) =
        roundTo 1 (combined_savings (gatedScenarios d q) * 100 /
          combined_investment (gatedScenarios d q))
      rw [if_pos hgt]

/-- Claim C3 (amended): `by_source` holds exactly the categories whose
unrounded value is strictly positive, each stored as that value rounded to
2 decimal places, and every stored value is non-negative.  A stored value
can still be 0 (when the unrounded value is below 0.005), so the original
claim's "never contains a zero-valued entry" fails (see the
counterexample). -/
theorem c3_by_source_characterisation (d : ActivityData) :
    (∀ kv ∈ by_source d, 0 ≤ kv.2) ∧
    (∀ kv ∈ by_source d, ∃ v, (kv.1, v) ∈ allCategories d ∧ 0 < v ∧ kv.2 = roundTo 2 v) ∧
    (∀ kv ∈ allCategories d, 0 < kv.2 → (kv.1, roundTo 2 kv.2) ∈ by_source d) := by
  refine ⟨?_, ?_, ?_⟩
  · intro kv hkv
    simp only [by_source, List.mem_map, List.mem_filter, decide_eq_true_eq] at hkv
    obtain ⟨⟨k, v⟩, ⟨hmem, hpos⟩, rfl⟩ := hkv
    exact roundTo_nonneg 2 hpos.le
  · intro kv hkv
    simp only [by_source, List.mem_map, List.mem_filter, decide_eq_true_eq] at hkv
    obtain ⟨⟨k, v⟩, ⟨hmem, hpos⟩, rfl⟩ := hkv
    exact ⟨v, hmem, hpos, rfl⟩
  · intro kv hkv hpos
    simp only [by_source, List.mem_map, List.mem_filter, decide_eq_true_eq]
    exact ⟨kv, ⟨hkv, hpos⟩, rfl⟩

/-- Claim C1 (amended): for every input whose fields are all non-negative
and whose renewable share is at most 100, the three scope subtotals and the
grand total are non-negative.  The original claim, which allows any
non-negative renewable value, fails for renewable shares above 100 (see the
counterexample): scope 2 multiplies by (1 - renewable/100) with no
clamping. -/
theorem c1_totals_nonneg (d : ActivityData) (hpos : NonnegInput d)
    (hr : d.renewable ≤ 100) :
    0 ≤ scope1_total d ∧ 0 ≤ scope2_total d ∧ 0 ≤ scope3_total d ∧
      0 ≤ total_emissions d := by
  obtain ⟨h1, h2, h3, h4, h5, h6, h7, h8, h9, h10, h11, h12, h13, h14, h15, h16, h17, h18,
    h19, h20, h21, h22⟩ := hpos
  have f1 : 0 ≤ d.diesel * FACTORS_diesel := mul_nonneg h1 (by norm_num [FACTORS_diesel])
  have f2 : 0 ≤ d.petrol * FACTORS_petrol := mul_nonneg h2 (by norm_num [FACTORS_petrol])
  have f3 : 0 ≤ d.natural_gas * FACTORS_natural_gas :=
    mul_nonneg h3 (by norm_num [FACTORS_natural_gas])
  have f4 : 0 ≤ d.coal * FACTORS_coal := mul_nonneg h4 (by norm_num [FACTORS_coal])
  have f5 : 0 ≤ d.lpg * FACTORS_lpg := mul_nonneg h5 (by norm_num [FACTORS_lpg])
  have f6 : 0 ≤ d.refrigerant_r22 * FACTORS_refrigerant_r22 +
      d.refrigerant_r410a * FACTORS_refrigerant_r410a +
      d.refrigerant_r134a * FACTORS_refrigerant_r134a :=
    add_nonneg (add_nonneg (mul_nonneg h8 (by norm_num [FACTORS_refrigerant_r22]))
        (mul_nonneg h9 (by norm_num [FACTORS_refrigerant_r410a])))
      (mul_nonneg h10 (by norm_num [FACTORS_refrigerant_r134a]))
  have hs1 : 0 ≤ scope1_total d := by
    unfold scope1_total scope1_categories
    simp only [List.map_cons, List.map_nil, List.sum_cons, List.sum_nil]
    linarith
  have hgrid : 0 ≤ grid_electricity d := by
    unfold grid_electricity
    apply mul_nonneg h6
    have : d.renewable / 100 ≤ 1 := by linarith
    linarith
  have hs2 : 0 ≤ scope2_total d := by
    unfold scope2_total
    exact mul_nonneg hgrid (by norm_num [FACTORS_electricity])
  have g1 : 0 ≤ scope3_RawMaterials d := by
    unfold scope3_RawMaterials
    have := mul_nonneg h11 (show (0 : ℚ) ≤ FACTORS_steel by norm_num [FACTORS_steel])
    have := mul_nonneg h12 (show (0 : ℚ) ≤ FACTORS_cement by norm_num [FACTORS_cement])
    have := mul_nonneg h13 (show (0 : ℚ) ≤ FACTORS_aluminum by norm_num [FACTORS_aluminum])
    have := mul_nonneg h14 (show (0 : ℚ) ≤ FACTORS_plastic by norm_num [FACTORS_plastic])
    have := mul_nonneg h15 (show (0 : ℚ) ≤ FACTORS_paper by norm_num [FACTORS_paper])
    have := mul_nonneg h16 (show (0 : ℚ) ≤ FACTORS_glass by norm_num [FACTORS_glass])
    linarith
  have g2 : 0 ≤ scope3_Logistics d := by
    unfold scope3_Logistics
    have := mul_nonneg h17
      (show (0 : ℚ) ≤ FACTORS_logistics_truck by norm_num [FACTORS_logistics_truck])
    have := mul_nonneg h18
      (show (0 : ℚ) ≤ FACTORS_logistics_ship by norm_num [FACTORS_logistics_ship])
    have := mul_nonneg h19
      (show (0 : ℚ) ≤ FACTORS_logistics_air by norm_num [FACTORS_logistics_air])
    linarith
  have g3 : 0 ≤ scope3_Waste d := by
    unfold scope3_Waste
    have := mul_nonneg h20
      (show (0 : ℚ) ≤ FACTORS_waste_landfill by norm_num [FACTORS_waste_landfill])
    have := mul_nonneg h21
      (show (0 : ℚ) ≤ FACTORS_waste_recycled by norm_num [FACTORS_waste_recycled])
    linarith
  have hs3 : 0 ≤ scope3_total d := by
    unfold scope3_total
    linarith
  refine ⟨hs1, hs2, hs3, ?_⟩
  unfold total_emissions
  linarith

/-- Witness for C1 at the all-zero input: the amended theorem applies and
all four totals are non-negative there. -/
theorem c1_witness :
    0 ≤ scope1_total zeroData ∧ 0 ≤ scope2_total zeroData ∧ 0 ≤ scope3_total zeroData ∧
      0 ≤ total_emissions zeroData :=
  c1_totals_nonneg zeroData (by simp [NonnegInput, zeroData]) (by norm_num [zeroData])

/-- Witness for C6 at the all-zero input: the last output scenario is the
combined one and the theorem's sum equations hold for it. -/
theorem c6_witness :
    ((calculate_scenarios zeroData 0).getLast (calc_ne_nil zeroData 0)).investment =
      (((calculate_scenarios zeroData 0).filter fun s =>
        !s.is_combined && decide (0 < s.investment)).map Scenario.investment).sum ∧
    ((calculate_scenarios zeroData 0).getLast (calc_ne_nil zeroData 0)).annual_savings =
      (((calculate_scenarios zeroData 0).filter fun s => !s.is_combined).map
        Scenario.annual_savings).sum ∧
    ((calculate_scenarios zeroData 0).getLast (calc_ne_nil zeroData 0)).carbon_reduction =
      (((calculate_scenarios zeroData 0).filter fun s => !s.is_combined).map
        Scenario.carbon_reduction).sum ∧
    |((calculate_scenarios zeroData 0).getLast (calc_ne_nil zeroData 0)).carbon_reduction -
        (((calculate_scenarios zeroData 0).filter fun s => !s.is_combined).map
          Scenario.carbon_reduction).sum| ≤ 1 / 1000000 :=
  c6_combined_sums zeroData 0 _ (List.getLast_mem _)
    (calc_getLast_combined zeroData 0 (calc_ne_nil zeroData 0))

/-- Claim C9: input coercion is total — a missing value, the empty string
and an unparseable string all coerce to the field's default, a parseable
numeral coerces to its value, and the `data` dict built from an all-missing
form is all zeros with production 1. -/
theorem c9_safe_float_total :
    (∀ dv : ℚ, safe_float FormValue.missing dv = dv) ∧
    (∀ dv : ℚ, safe_float (FormValue.str "") dv = dv) ∧
    (∀ s dv, pyFloatParse s = none → safe_float (FormValue.str s) dv = dv) ∧
    (∀ s dv v, pyFloatParse s = some v → safe_float (FormValue.str s) dv = v) ∧
    buildData (fun _ => FormValue.missing) = { zeroData with production := 1 } := by
  refine ⟨fun dv => rfl, fun dv => rfl, ?_, ?_, rfl⟩
  · intro s dv hparse
    simp only [safe_float]
    by_cases hs : s = ""
    · rw [if_pos hs]
    · rw [if_neg hs, hparse]
      rfl
  · intro s dv v hparse
    simp only [safe_float]
    by_cases hs : s = ""
    · subst hs
      rw [show pyFloatParse "" = none from rfl] at hparse
      exact Option.noConfusion hparse
    · rw [if_neg hs, hparse]
      rfl

/-- Claim C1 fails as stated: at the non-negative input `dOverRenew`
(electricity 1000, renewable 200) the scope-2 subtotal and the grand total
computed by `index` are -0.71 < 0. -/
theorem c1_counterexample :
    0 ≤ dOverRenew.renewable ∧ scope2_total dOverRenew = -(71 / 100) ∧
      total_emissions dOverRenew < 0 := by
  refine ⟨by norm_num [dOverRenew, zeroData], ?_, ?_⟩ <;>
    norm_num [scope1_total, scope2_total, scope3_total, total_emissions, grid_electricity,
      scope1_categories, scope3_RawMaterials, scope3_Logistics, scope3_Waste,
      FACTORS_diesel, FACTORS_petrol, FACTORS_natural_gas, FACTORS_coal, FACTORS_lpg,
      FACTORS_electricity, FACTORS_refrigerant_r22, FACTORS_refrigerant_r410a,
      FACTORS_refrigerant_r134a, FACTORS_steel, FACTORS_cement, FACTORS_aluminum,
      FACTORS_plastic, FACTORS_paper, FACTORS_glass, FACTORS_logistics_truck,
      FACTORS_logistics_ship, FACTORS_logistics_air, FACTORS_waste_landfill,
      FACTORS_waste_recycled, List.sum_cons, List.sum_nil, dOverRenew, zeroData]

/-- Claim C2 fails as stated: at the all-zero input the scenario list holds
two entries, and the first is the emitted non-combined Green Energy
Procurement scenario with investment, annual_savings, carbon_reduction and
roi_percent all zero ("absent data suppresses that scenario" does not hold
for it). -/
theorem c2_counterexample :
    (scenariosOf zeroData).map
        (fun s => (s.name, s.is_combined, s.investment, s.annual_savings,
          s.carbon_reduction, s.roi_percent)) =
      [("Green Energy Procurement", false, 0, 0, 0, 0),
       ("Combined Optimization (All Measures)", true, 0, 0, 0, 0)] := by
  norm_num [scenariosOf, calculate_scenarios, gatedScenarios, solarScenario, evScenario,
    efficiencyScenario, wasteScenario, greenScenario, materialScenario,
    target_renewable, additional_renewable_pct, additional_renewable_kwh,
    renewable_emission_reduction, green_premium, renewable_carbon_savings,
    net_renewable_savings, combinedScenario, combined_investment, combined_savings,
    combined_carbon, scenKeyLe, List.insertionSort, List.orderedInsert,
    List.filterMap_cons, List.filterMap_nil, List.sum_cons, List.sum_nil, id,
    scope3_RawMaterials, FACTORS_electricity, CARBON_PRICE,
    roundTo, round_eq, List.filter, zeroData]

/-- Claim C3 fails as stated: at diesel 1 the Diesel category value 0.00268
is strictly positive, so it enters `by_source`, but the stored rounded value
is 0 — `by_source` does contain a zero-valued entry. -/
theorem c3_counterexample : by_source dDiesel1 = [("Diesel", 0)] := by
  norm_num [by_source, allCategories, scope1_categories, scope2_categories, scope3_categories,
    grid_electricity, scope3_RawMaterials, scope3_Logistics, scope3_Waste,
    FACTORS_diesel, FACTORS_petrol, FACTORS_natural_gas, FACTORS_coal, FACTORS_lpg,
    FACTORS_electricity, FACTORS_refrigerant_r22, FACTORS_refrigerant_r410a,
    FACTORS_refrigerant_r134a, FACTORS_steel, FACTORS_cement, FACTORS_aluminum,
    FACTORS_plastic, FACTORS_paper, FACTORS_glass, FACTORS_logistics_truck,
    FACTORS_logistics_ship, FACTORS_logistics_air, FACTORS_waste_landfill,
    FACTORS_waste_recycled, roundTo, round_eq, dDiesel1, zeroData, List.filter]

/-- Claim C4 (code divergence): at `dZeroTotal` the grand total is exactly 0
while `by_source` still has the positive Coal entry, and the hotspot
computation performs `v / total * 100` with no zero-total guard, raising
`ZeroDivisionError` instead of reporting 0%. -/
theorem c4_hotspots_division_error :
    by_source dZeroTotal = [("Coal", 71 / 100)] ∧ total_emissions dZeroTotal = 0 ∧
      hotspots dZeroTotal = Except.error "ZeroDivisionError" := by
  refine ⟨?_, ?_, ?_⟩ <;>
    norm_num [hotspots, hotspotList, pydiv, by_source, allCategories,
      scope1_categories, scope2_categories, scope3_categories,
      scope1_total, scope2_total, scope3_total, total_emissions,
      grid_electricity, scope3_RawMaterials, scope3_Logistics, scope3_Waste,
      FACTORS_diesel, FACTORS_petrol, FACTORS_natural_gas, FACTORS_coal, FACTORS_lpg,
      FACTORS_electricity, FACTORS_refrigerant_r22, FACTORS_refrigerant_r410a,
      FACTORS_refrigerant_r134a, FACTORS_steel, FACTORS_cement, FACTORS_aluminum,
      FACTORS_plastic, FACTORS_paper, FACTORS_glass, FACTORS_logistics_truck,
      FACTORS_logistics_ship, FACTORS_logistics_air, FACTORS_waste_landfill,
      FACTORS_waste_recycled, roundTo, round_eq, dZeroTotal, zeroData, List.filter,
      List.sum_cons, List.sum_nil]

/-- Claim C5 fails as stated: at `dTie` the sorted output holds, at positions
1 and 2, two distinct non-combined scenarios (Rooftop Solar, then EV Fleet)
with equal roi_percent 2.1.  With A the EV scenario and B the Solar one,
A.roi_percent ≥ B.roi_percent holds yet A appears after B, so "A appears
before B iff A.roi_percent ≥ B.roi_percent" is false at this input. -/
theorem c5_counterexample :
    (scenariosOf dTie).map (fun s => (s.name, s.roi_percent, s.is_combined)) =
      [("Energy Efficiency (15% reduction)", 255, false),
       ("Rooftop Solar (40% offset)", 21 / 10, false),
       ("EV Fleet (30% transition)", 21 / 10, false),
       ("Green Energy Procurement", 0, false),
       ("Combined Optimization (All Measures)", 2, true)] := by
  norm_num [scenariosOf, calculate_scenarios, gatedScenarios, solarScenario, evScenario,
    efficiencyScenario, wasteScenario, greenScenario, materialScenario,
    solar_kwh, solar_emission_reduction, solar_energy_savings, system_size_kw,
    solar_investment, solar_roi, vehicle_fuel_cost, ev_fuel_savings, ev_emission_reduction,
    vehicles_to_replace, ev_investment, ev_roi, pyint, kwh_saved,
    efficiency_emission_reduction, efficiency_cost_savings, efficiency_investment,
    efficiency_roi, target_renewable, additional_renewable_pct,
    additional_renewable_kwh, renewable_emission_reduction, green_premium,
    renewable_carbon_savings, net_renewable_savings,
    combinedScenario, combined_investment, combined_savings, combined_carbon,
    scenKeyLe, List.insertionSort, List.orderedInsert, List.filterMap_cons,
    List.filterMap_nil, List.sum_cons, List.sum_nil, id,
    scope3_RawMaterials, FACTORS_steel, FACTORS_cement, FACTORS_aluminum, FACTORS_plastic,
    FACTORS_paper, FACTORS_glass, FACTORS_diesel, FACTORS_petrol, FACTORS_electricity,
    ENERGY_COSTS_electricity, ENERGY_COSTS_diesel, ENERGY_COSTS_petrol, CARBON_PRICE,
    roundTo, round_eq, dTie, zeroData, List.filter]

/-- Claim C7 fails as stated: at `dTinyA` the emitted Energy Efficiency and
Rooftop Solar scenarios have stored annual_savings = 0 but payback_years 0.4
and 47.1, and at `dTinyB` they have stored investment = 0 but roi_percent
255 and 2.1 — the division guards read the unrounded quantities, not the
stored (rounded) fields the claim refers to. -/
theorem c7_counterexample :
    (scenariosOf dTinyA).map (fun s => (s.name, s.annual_savings, s.payback_years)) =
      [("Energy Efficiency (15% reduction)", 0, 2 / 5),
       ("Rooftop Solar (40% offset)", 0, 471 / 10),
       ("Green Energy Procurement", 0, 0),
       ("Combined Optimization (All Measures)", 0, 0)] ∧
    (scenariosOf dTinyB).map (fun s => (s.name, s.is_combined, s.investment, s.roi_percent)) =
      [("Energy Efficiency (15% reduction)", false, 0, 255),
       ("Rooftop Solar (40% offset)", false, 0, 21 / 10),
       ("Green Energy Procurement", false, 0, 0),
       ("Combined Optimization (All Measures)", true, 0, 0)] := by
  refine ⟨?_, ?_⟩ <;>
    norm_num [scenariosOf, calculate_scenarios, gatedScenarios, solarScenario, evScenario,
      efficiencyScenario, wasteScenario, greenScenario, materialScenario,
      solar_kwh, solar_emission_reduction, solar_energy_savings, system_size_kw,
      solar_investment, solar_roi, kwh_saved,
      efficiency_emission_reduction, efficiency_cost_savings, efficiency_investment,
      efficiency_roi, target_renewable, additional_renewable_pct,
      additional_renewable_kwh, renewable_emission_reduction, green_premium,
      renewable_carbon_savings, net_renewable_savings,
      combinedScenario, combined_investment, combined_savings, combined_carbon,
      scenKeyLe, List.insertionSort, List.orderedInsert, List.filterMap_cons,
      List.filterMap_nil, List.sum_cons, List.sum_nil, id,
      scope3_RawMaterials, FACTORS_electricity,
      ENERGY_COSTS_electricity, CARBON_PRICE,
      roundTo, round_eq, dTinyA, dTinyB, zeroData, List.filter]

/-- Claim C8: at electricity 10000, renewable 0 and all else 0, scope 2 is
7.1, `by_source` holds exactly the Grid Electricity entry, the emitted
scenarios are exactly Energy Efficiency, Rooftop Solar, Green Energy
Procurement and the combined one, and the EV, Waste and Material scenarios
are suppressed. -/
theorem c8_example :
    scope2_total d8ex = 71 / 10 ∧
    by_source d8ex = [("Grid Electricity", 71 / 10)] ∧
    ((scenariosOf d8ex).map Scenario.name) =
      ["Energy Efficiency (15% reduction)", "Rooftop Solar (40% offset)",
       "Green Energy Procurement", "Combined Optimization (All Measures)"] ∧
    evScenario d8ex = none ∧ wasteScenario d8ex = none ∧
    materialScenario (scope3_RawMaterials d8ex) = none := by
  refine ⟨?_, ?_, ?_, ?_, ?_, ?_⟩ <;>
    norm_num [scenariosOf, calculate_scenarios, gatedScenarios, solarScenario, evScenario,
      efficiencyScenario, wasteScenario, greenScenario, materialScenario,
      solar_kwh, solar_emission_reduction, solar_energy_savings, system_size_kw,
      solar_investment, solar_roi, kwh_saved,
      efficiency_emission_reduction, efficiency_cost_savings, efficiency_investment,
      efficiency_roi, target_renewable, additional_renewable_pct,
      additional_renewable_kwh, renewable_emission_reduction, green_premium,
      renewable_carbon_savings, net_renewable_savings,
      combinedScenario, combined_investment, combined_savings, combined_carbon,
      scenKeyLe, List.insertionSort, List.orderedInsert, List.filterMap_cons,
      List.filterMap_nil, List.sum_cons, List.sum_nil, id,
      by_source, allCategories, scope1_categories, scope2_categories, scope3_categories,
      grid_electricity, scope2_total, scope3_RawMaterials, scope3_Logistics, scope3_Waste,
      FACTORS_diesel, FACTORS_petrol, FACTORS_natural_gas, FACTORS_coal, FACTORS_lpg,
      FACTORS_electricity, FACTORS_refrigerant_r22, FACTORS_refrigerant_r410a,
      FACTORS_refrigerant_r134a, FACTORS_steel, FACTORS_cement, FACTORS_aluminum,
      FACTORS_plastic, FACTORS_paper, FACTORS_glass, FACTORS_logistics_truck,
      FACTORS_logistics_ship, FACTORS_logistics_air, FACTORS_waste_landfill,
      FACTORS_waste_recycled, ENERGY_COSTS_electricity, CARBON_PRICE,
      roundTo, round_eq, d8ex, zeroData, List.filter]

end CarbonLens
